import Mathlib

/-!
Verification of the rpg-cli-mod encounter and command subsystem.

The Rust sources under `src/` are embedded shallowly: pure functions become
Lean functions; game mutation becomes explicit state passing; the pluggable
randomizer (its outcomes) is passed in as explicit parameters, so every
random branch is quantified over.  Machine integers (`i32`) are modelled as
`Int`; Rust's truncating division `/` is `Int.tdiv`.
-/

namespace RpgCli

/-- Rings, from `item/ring.rs` (usages visible in `character/enemy.rs`).
Modelled from the spec: the full ring list is not in src/; the variants the
core reads (`Ruling`, `Evade`, `Void`) are kept and the rest abstracted. -/
inductive Ring
  | Ruling
  | Evade
  | Void
  | OtherRing (name : String)
deriving DecidableEq, Repr

/-- A `(base, growth)` stat pair, `character/class.rs` `Stat(i32, i32)`. -/
structure Stat where
  base : Int
  growth : Int
deriving DecidableEq, Repr

/-- Class category tier, from `character/class.rs` (usages visible in
`character/enemy.rs`); the wildcard arm of the tier match in `spawn_random`
shows further tiers exist, abstracted as `OtherCat`. -/
inductive Category
  | Player
  | Common
  | Rare
  | Legendary
  | OtherCat (name : String)
deriving DecidableEq, Repr

/-- A character class: name, category, and stat pairs, as read by
`character/enemy.rs` (`name`, `category`, `hp`, `strength`, `speed`). -/
structure Class where
  name : String
  category : Category
  hp : Stat
  strength : Stat
  speed : Stat
deriving DecidableEq, Repr

/-- Character state, the fields `character/enemy.rs` and `command.rs` read:
class snapshot, level, and the two ring slots.
Modelled from the spec: `character/mod.rs` is not in src/; per spec section 3
a Character owns a cloned Class, a level, and two ordered ring slots. -/
structure Character where
  cls : Class
  level : Int
  left_ring : Option Ring
  right_ring : Option Ring
deriving DecidableEq, Repr

/-- Modelled from the spec: `Character::new` (`character/mod.rs` is not in
src/) instantiates a character of the given class at the given level. -/
def Character.new (c : Class) (level : Int) : Character :=
  { cls := c, level := level, left_ring := none, right_ring := none }

/-- Modelled from the spec: the opaque Distance of `location.rs` (not in
src/); the core only reads its `len()` scalar. -/
structure Distance where
  len : Int
deriving DecidableEq, Repr

/-- Modelled from the spec: the `location.rs` observations the encounter
code reads (`distance_from_home`, `is_home`, `is_rpg_dir`). -/
structure Location where
  distanceFromHome : Distance
  isHome : Bool
  isRpgDir : Bool
deriving DecidableEq, Repr

/-- Modelled from the spec: `Character::enemies_evaded` (`character/mod.rs`
is not in src/).  Spec section 3: evasion is active iff either ring slot
currently holds the Evade ring. -/
def enemies_evaded (player : Character) : Bool :=
  player.left_ring == some Ring.Evade || player.right_ring == some Ring.Evade

/-- The catalog lookups `character/enemy.rs` performs
(`Class::player_first`, `Class::player_by_name("guardian")`,
`Class::enemies`); the catalog itself is loaded by `datafile.rs` (not in
src/), so it is passed in. -/
structure Catalog where
  playerFirst : Class
  guardianClass : Class
  enemies : List Class

/-- `character/enemy.rs::spawn_gorthaur`: final boss, only when wearing the
Ruling ring and distance length at least 100; doubles the base hp and base
strength of the first catalog class and makes it Legendary. -/
def spawn_gorthaur (cat : Catalog) (player : Character) (loc : Location) :
    Option (Class × Int) :=
  if (player.left_ring = some Ring.Ruling ∨ player.right_ring = some Ring.Ruling)
      ∧ loc.distanceFromHome.len ≥ 100 then
    some ({ cat.playerFirst with
            name := "gorthaur",
            hp := { cat.playerFirst.hp with base := cat.playerFirst.hp.base * 2 },
            strength := { cat.playerFirst.strength with
                          base := cat.playerFirst.strength.base * 2 },
            category := Category.Legendary }, player.level)
  else
    none

/-- `character/enemy.rs::spawn_shadow`: player shadow at the home directory;
`shadowRoll` is the outcome of the `gen_ratio(1, 10)` draw. -/
def spawn_shadow (shadowRoll : Bool) (player : Character) (loc : Location) :
    Option (Class × Int) :=
  if loc.isHome && shadowRoll then
    some ({ player.cls with name := "shadow", category := Category.Rare },
          player.level + 3)
  else
    none

/-- `character/enemy.rs::spawn_dev`: easter egg at the rpg data dir; halves
the base hp, strength and speed of the first catalog class (`i32` division,
hence `Int.tdiv`); `devRoll` is the `gen_ratio(1, 10)` outcome. -/
def spawn_dev (cat : Catalog) (devRoll : Bool) (player : Character) (loc : Location) :
    Option (Class × Int) :=
  if loc.isRpgDir && devRoll then
    some ({ cat.playerFirst with
            name := "dev",
            hp := { cat.playerFirst.hp with base := Int.tdiv cat.playerFirst.hp.base 2 },
            strength := { cat.playerFirst.strength with
                          base := Int.tdiv cat.playerFirst.strength.base 2 },
            speed := { cat.playerFirst.speed with
                       base := Int.tdiv cat.playerFirst.speed.base 2 },
            category := Category.Rare }, player.level)
  else
    none

/-- The character used to totalize the unreachable `enemy_group[0]` index
of an empty group (in Rust a panic, never hit because groups are built
from their own members). -/
def defaultClass : Class :=
  { name := "", category := Category.Common,
    hp := { base := 0, growth := 0 },
    strength := { base := 0, growth := 0 },
    speed := { base := 0, growth := 0 } }

/-- `enemy.name.split(' ').next().unwrap()`: the prefix of a class name
before the first space (code point 32), keying the enemy family. -/
def baseName (s : String) : String :=
  String.mk (s.data.takeWhile (fun c => !(c.toNat == 32)))

/-- The enemy family (HashMap group) with the given base name, in catalog
order, as built by the grouping loop of `spawn_random`. -/
def groupOf (enemies : List Class) (g : String) : List Class :=
  enemies.filter (fun e => baseName e.name == g)

/-- The per-tier level requirement match inside `spawn_random`. -/
def levelReq : Category → Int
  | Category.Common => 1
  | Category.Rare => 5
  | Category.Legendary => 10
  | _ => 1

/-- One step of Rust's `Iterator::max_by_key` on `hp.0`: the new element
replaces the current maximum when its key is greater or equal, so ties keep
the last element, as documented for `max_by_key`. -/
def maxStep (acc : Option Class) (e : Class) : Option Class :=
  match acc with
  | none => some e
  | some m => if m.hp.base ≤ e.hp.base then some e else some m

/-- `Iterator::max_by_key(|e| e.hp.0)` over a list of classes. -/
def maxByHp (l : List Class) : Option Class :=
  l.foldl maxStep none

/-- The variants of the chosen family whose tier requirement is met by the
player's level (the `filter` inside `spawn_random`). -/
def eligibleOf (enemies : List Class) (g : String) (player : Character) : List Class :=
  (groupOf enemies g).filter (fun e => decide (levelReq e.category ≤ player.level))

/-- `character/enemy.rs::spawn_random`: `groupChoice` is the base name
drawn uniformly from the group keys; class = max-hp eligible variant of
that family (falling back to the family's first variant), level =
`max(player.level / 10 + distance.len() - 1, 1)` in `i32` arithmetic. -/
def spawn_random (enemies : List Class) (groupChoice : String)
    (player : Character) (distance : Distance) : Class × Int :=
  let enemy_group := groupOf enemies groupChoice
  let enemy := (maxByHp (eligibleOf enemies groupChoice player)).getD
    (enemy_group.headD defaultClass)
  let level := max (Int.tdiv player.level 10 + distance.len - 1) 1
  (enemy, level)

/-- `character/enemy.rs::spawn`: the full encounter generator.  Randomizer
outcomes are explicit: `appear` is the `should_enemy_appear` roll,
`shadowRoll`/`devRoll` the `gen_ratio` draws, `groupChoice` the uniform
family pick, and `jitter` the `enemy_level` post-processing. -/
def spawn (cat : Catalog) (appear shadowRoll devRoll : Bool) (groupChoice : String)
    (jitter : Int → Int) (player : Character) (loc : Location)
    (quests : List (Bool × String)) : Option Character :=
  if enemies_evaded player then
    none
  else
    let distance := loc.distanceFromHome
    if appear then
      let guardian_quest_unlocked :=
        quests.any (fun q => !q.1 && q.2 == "Defeat the Guardian.")
      let cl :=
        if guardian_quest_unlocked = true ∧ distance.len > 10 then
          (cat.guardianClass, player.level + 5)
        else
          match spawn_gorthaur cat player loc with
          | some r => r
          | none =>
            match spawn_shadow shadowRoll player loc with
            | some r => r
            | none =>
              match spawn_dev cat devRoll player loc with
              | some r => r
              | none => spawn_random cat.enemies groupChoice player distance
      some (Character.new cl.1 (jitter cl.2))
    else
      none

/-- `character/npc.rs::Encounter`: NPC encounter kinds. -/
inductive Encounter
  | Gambler
  | Witch
  | GhostlyMaiden
deriving DecidableEq, Repr

/-- Item keys, from `item/key.rs` (usages visible in `quest/find_amulet.rs`).
Modelled from the spec: the full key list is not in src/; the variant the
quests read (`Amulet`) is kept and the rest abstracted. -/
inductive Key
  | Amulet
  | OtherKey (name : String)
deriving DecidableEq, Repr

/-- Gameplay events, from `quest/mod.rs` (usages visible in the quest
files).  Modelled from the spec: the Event enum is not in src/;
`BattleWon` carries the defeated enemy (here, its name, the field the
quests read) and `ItemAdded` the item key; further variants are
abstracted as `OtherEvent`. -/
inductive Event
  | BattleWon (enemyName : String)
  | ItemAdded (item : Key)
  | OtherEvent (tag : String)
deriving DecidableEq, Repr

/-- The game-state fields the commands in `command.rs` read and write.
Modelled from the spec: `game.rs` is not in src/; `quests.list()` is kept
as its observable `(completed, description)` pairs. -/
structure Game where
  player : Character
  location : Location
  quests : List (Bool × String)
  in_combat : Option Character
  in_encounter : Option Encounter
  gold : Int
deriving DecidableEq, Repr

/-- `character/npc.rs::spawn`: on a successful appearance roll, draws
`range(3)` (passed as `r`) and stores the matching NPC encounter kind in
`game.in_encounter`; no other field is touched and nothing is checked. -/
def npc_spawn (appear : Bool) (r : Nat) (g : Game) : Game :=
  if appear then
    let encounter : Option Encounter :=
      match r with
      | 0 => some Encounter.Gambler
      | 1 => some Encounter.Witch
      | 2 => some Encounter.GhostlyMaiden
      | _ => none
    match encounter with
    | some e => { g with in_encounter := some e }
    | none => g
  else
    g

/-- `command.rs::bet`: only with an active Gambler encounter; betting more
gold than held fails early; otherwise `range(2)` (passed as `r`) decides
win (`gold += amount`) or loss (`gold -= amount`) and the encounter slot is
cleared.  Errors are the `bail!` messages. -/
def bet (g : Game) (amount : Int) (r : Nat) : Game × Option String :=
  match g.in_encounter with
  | some Encounter.Gambler =>
    if amount > g.gold then
      (g, some "You don't have that much gold to bet.")
    else
      if r == 0 then
        ({ g with gold := g.gold + amount, in_encounter := none }, none)
      else
        ({ g with gold := g.gold - amount, in_encounter := none }, none)
  | _ => (g, some "There is no one to bet with here.")

/-- `command.rs::brew`: only with an active Witch encounter; adds a potion
via `game.add_item` (in the missing `game.rs`, passed in as `addPotion`)
and then clears the encounter slot. -/
def brew (addPotion : Game → Game) (g : Game) : Game × Option String :=
  match g.in_encounter with
  | some Encounter.Witch =>
    ({ addPotion g with in_encounter := none }, none)
  | _ => (g, some "There is no witch here to brew a potion.")

/-- `command.rs::listen`: only with an active GhostlyMaiden encounter;
prints one of three lore lines (presentation only) and clears the
encounter slot. -/
def listen (g : Game) : Game × Option String :=
  match g.in_encounter with
  | some Encounter.GhostlyMaiden =>
    ({ g with in_encounter := none }, none)
  | _ => (g, some "There is no one to listen to here.")

/-- `command.rs::battle`: refuses when `in_combat` is already occupied,
otherwise runs `enemy::spawn` and stores a spawned enemy in `in_combat`.
Only the combat slot is checked; `in_encounter` is not consulted. -/
def battle (cat : Catalog) (appear shadowRoll devRoll : Bool) (groupChoice : String)
    (jitter : Int → Int) (g : Game) : Game × Option String :=
  if g.in_combat.isSome then
    (g, some "Already in combat.")
  else
    match spawn cat appear shadowRoll devRoll groupChoice jitter
        g.player g.location g.quests with
    | some enemy => ({ g with in_combat := some enemy }, none)
    | none => (g, none)

/-- The error a game operation can signal: the distinguished
`character::Dead` (detected in `command.rs` via `downcast_ref`) or any
other error with its message. -/
inductive GameErr
  | dead
  | other (msg : String)
deriving DecidableEq, Repr

/-- `command.rs::attack`: runs `game.battle_round()` (in the missing
`game.rs`, passed in as `battleRound`, returning the mutated game and an
optional error); on the Dead error the game is reset and an empty-message
error returned (`bail!("")`); other errors pass through untouched. -/
def attack (battleRound : Game → Game × Option GameErr) (reset : Game → Game)
    (g : Game) : Game × Option GameErr :=
  match battleRound g with
  | (g1, some GameErr.dead) => (reset g1, some (GameErr.other ""))
  | (g1, some e) => (g1, some e)
  | (g1, none) => (g1, none)

/-- `command.rs::flee`: like `attack` around `game.player_flee()`. -/
def flee (playerFlee : Game → Game × Option GameErr) (reset : Game → Game)
    (g : Game) : Game × Option GameErr :=
  match playerFlee g with
  | (g1, some GameErr.dead) => (reset g1, some (GameErr.other ""))
  | (g1, some e) => (g1, some e)
  | (g1, none) => (g1, none)

/-- `command.rs::bribe`: like `attack` around `game.player_bribe()`. -/
def bribe (playerBribe : Game → Game × Option GameErr) (reset : Game → Game)
    (g : Game) : Game × Option GameErr :=
  match playerBribe g with
  | (g1, some GameErr.dead) => (reset g1, some (GameErr.other ""))
  | (g1, some e) => (g1, some e)
  | (g1, none) => (g1, none)

/-- `command.rs::use_skill`: like `attack` around `game.use_skill(name)`
(the skill name is already applied inside the passed operation). -/
def use_skill (useSkillOp : Game → Game × Option GameErr) (reset : Game → Game)
    (g : Game) : Game × Option GameErr :=
  match useSkillOp g with
  | (g1, some GameErr.dead) => (reset g1, some (GameErr.other ""))
  | (g1, some e) => (g1, some e)
  | (g1, none) => (g1, none)

/-- `command.rs::change_dir`: runs `game.visit(dest)` when forced, else
`game.go_to(&dest)` (both in the missing `game.rs`, passed in); the Dead
error triggers the reset and `bail!("")`; other errors pass through. -/
def change_dir (goTo visit : Game → Game × Option GameErr) (reset : Game → Game)
    (force : Bool) (g : Game) : Game × Option GameErr :=
  match (if force then visit g else goTo g) with
  | (g1, some GameErr.dead) => (reset g1, some (GameErr.other ""))
  | (g1, some e) => (g1, some e)
  | (g1, none) => (g1, none)

/-- `quest/defeat_guardian.rs::DefeatGuardian::handle` over the stored
`finished` flag: a `BattleWon` against "guardian" sets it; the (updated)
flag is returned.  Result: (new flag, returned completion). -/
def DefeatGuardian.handle (finished : Bool) (e : Event) : Bool × Bool :=
  let finished :=
    match e with
    | Event.BattleWon n => if n == "guardian" then true else finished
    | _ => finished
  (finished, finished)

/-- `quest/find_amulet.rs::FindAmulet::handle` over the stored `finished`
flag: an `ItemAdded` of the Amulet key sets it; the (updated) flag is
returned. -/
def FindAmulet.handle (finished : Bool) (e : Event) : Bool × Bool :=
  let finished :=
    match e with
    | Event.ItemAdded item => if item == Key.Amulet then true else finished
    | _ => finished
  (finished, finished)

/-- Folds a quest handler over a sequence of events, threading the stored
completion flag. -/
def runEvents (h : Bool → Event → Bool × Bool) (s : Bool) (es : List Event) : Bool :=
  es.foldl (fun st e => (h st e).1) s

/-! ### Concrete fixtures used by witnesses and counterexamples -/

/-- A small player-selectable class for concrete instances. -/
def plainClass : Class :=
  { name := "warrior", category := Category.Player,
    hp := { base := 30, growth := 5 },
    strength := { base := 10, growth := 2 },
    speed := { base := 5, growth := 1 } }

/-- A common-tier enemy variant of the "slime" family. -/
def slimeCommon : Class :=
  { name := "slime", category := Category.Common,
    hp := { base := 10, growth := 2 },
    strength := { base := 3, growth := 1 },
    speed := { base := 2, growth := 1 } }

/-- A rare-tier enemy variant of the "slime" family. -/
def slimeRare : Class :=
  { name := "slime warrior", category := Category.Rare,
    hp := { base := 20, growth := 3 },
    strength := { base := 6, growth := 1 },
    speed := { base := 3, growth := 1 } }

/-- A concrete catalog with one enemy family in two tiers. -/
def baseCatalog : Catalog :=
  { playerFirst := plainClass,
    guardianClass := { plainClass with name := "guardian" },
    enemies := [slimeCommon, slimeRare] }

/-- A ring-less player of the given level. -/
def mkChar (l : Int) : Character :=
  { cls := plainClass, level := l, left_ring := none, right_ring := none }

/-- A nearby, unremarkable location (distance length 1). -/
def plainLoc : Location :=
  { distanceFromHome := { len := 1 }, isHome := false, isRpgDir := false }

/-- A remote location (distance length 100). -/
def farLoc : Location :=
  { distanceFromHome := { len := 100 }, isHome := false, isRpgDir := false }

/-! ### Helper lemmas -/

theorem maxFold_spec (l : List Class) : ∀ m : Class,
    ∃ c, List.foldl maxStep (some m) l = some c ∧ (c = m ∨ c ∈ l) ∧
      m.hp.base ≤ c.hp.base ∧ ∀ e ∈ l, e.hp.base ≤ c.hp.base := by
  induction l with
  | nil =>
    intro m
    exact ⟨m, rfl, Or.inl rfl, le_refl _, fun e he => absurd he (List.not_mem_nil e)⟩
  | cons a t ih =>
    intro m
    rw [List.foldl_cons]
    by_cases hcmp : m.hp.base ≤ a.hp.base
    · have hstep : maxStep (some m) a = some a := by simp [maxStep, hcmp]
      rw [hstep]
      obtain ⟨c, hf, hmem, hge, hall⟩ := ih a
      refine ⟨c, hf, ?_, le_trans hcmp hge, ?_⟩
      · rcases hmem with rfl | hc
        · exact Or.inr (List.mem_cons_self _ _)
        · exact Or.inr (List.mem_cons_of_mem _ hc)
      · intro e he
        rcases List.mem_cons.mp he with rfl | he2
        · exact hge
        · exact hall e he2
    · have hstep : maxStep (some m) a = some m := by simp [maxStep, hcmp]
      rw [hstep]
      obtain ⟨c, hf, hmem, hge, hall⟩ := ih m
      refine ⟨c, hf, ?_, hge, ?_⟩
      · rcases hmem with rfl | hc
        · exact Or.inl rfl
        · exact Or.inr (List.mem_cons_of_mem _ hc)
      · intro e he
        rcases List.mem_cons.mp he with rfl | he2
        · exact le_trans (le_of_lt (lt_of_not_le hcmp)) hge
        · exact hall e he2

theorem maxByHp_spec (l : List Class) (hne : l ≠ []) :
    ∃ c, maxByHp l = some c ∧ c ∈ l ∧ ∀ e ∈ l, e.hp.base ≤ c.hp.base := by
  match l, hne with
  | a :: t, _ =>
    obtain ⟨c, hf, hmem, hge, hall⟩ := maxFold_spec t a
    refine ⟨c, ?_, ?_, ?_⟩
    · show List.foldl maxStep (maxStep none a) t = some c
      exact hf
    · rcases hmem with rfl | hc
      · exact List.mem_cons_self _ _
      · exact List.mem_cons_of_mem _ hc
    · intro e he
      rcases List.mem_cons.mp he with rfl | he2
      · exact hge
      · exact hall e he2

theorem defeatGuardian_handle_stays (e : Event) :
    DefeatGuardian.handle true e = (true, true) := by
  cases e <;> simp [DefeatGuardian.handle]

theorem findAmulet_handle_stays (e : Event) :
    FindAmulet.handle true e = (true, true) := by
  cases e <;> simp [FindAmulet.handle]

theorem runEvents_true (h : Bool → Event → Bool × Bool)
    (hh : ∀ e, h true e = (true, true)) :
    ∀ es : List Event, runEvents h true es = true := by
  intro es
  induction es with
  | nil => rfl
  | cons e t ih =>
    show runEvents h (h true e).1 t = true
    rw [hh e]
    exact ih

/-! ### Claims -/

/-- C1: for every player level L ≥ 0 and distance length D ≥ 1, the level
chosen by the default random spawn `spawn_random` equals
max(L/10 + D − 1, 1), where L/10 is (truncating) integer division — for
nonnegative L the code's truncating `i32` division agrees with `/`. -/
theorem claim_C1 (enemies : List Class) (gc : String) (player : Character)
    (d : Distance) (hL : 0 ≤ player.level) (hD : 1 ≤ d.len) :
    (spawn_random enemies gc player d).2 =
      max (player.level / 10 + d.len - 1) 1 := by
  show max (Int.tdiv player.level 10 + d.len - 1) 1 =
    max (player.level / 10 + d.len - 1) 1
  rw [Int.tdiv_eq_ediv hL (by norm_num)]

/-- C1 witness: the four example points of the claim, L=0,D=1 → 1;
L=0,D=10 → 9; L=10,D=10 → 10; L=10,D=2 → 2. -/
theorem claim_C1_wit :
    (spawn_random [] "g" (mkChar 0) { len := 1 }).2 = 1 ∧
    (spawn_random [] "g" (mkChar 0) { len := 10 }).2 = 9 ∧
    (spawn_random [] "g" (mkChar 10) { len := 10 }).2 = 10 ∧
    (spawn_random [] "g" (mkChar 10) { len := 2 }).2 = 2 :=
  ⟨(claim_C1 [] "g" (mkChar 0) { len := 1 } (by decide) (by decide)).trans (by decide),
   (claim_C1 [] "g" (mkChar 0) { len := 10 } (by decide) (by decide)).trans (by decide),
   (claim_C1 [] "g" (mkChar 10) { len := 10 } (by decide) (by decide)).trans (by decide),
   (claim_C1 [] "g" (mkChar 10) { len := 2 } (by decide) (by decide)).trans (by decide)⟩

/-- A player wearing the Ruling ring, used for the C2 instances. -/
def c2Player : Character :=
  { cls := plainClass, level := 3, left_ring := some Ring.Ruling, right_ring := none }

/-- C2 counterexample: with the Ruling ring worn and distance length 100
the final-boss spawn fires, but the produced variant is not doubled-stat:
its base speed stays at 5 instead of doubling to 10 (only base hp and base
strength are doubled). -/
theorem claim_C2_cex :
    (spawn_gorthaur baseCatalog c2Player farLoc).isSome = true ∧
    (spawn_gorthaur baseCatalog c2Player farLoc).map (fun r => r.1.speed.base) = some 5 ∧
    baseCatalog.playerFirst.speed.base = 5 ∧
    ¬ (spawn_gorthaur baseCatalog c2Player farLoc).map (fun r => r.1.speed.base) =
        some (2 * baseCatalog.playerFirst.speed.base) := by
  decide

/-- C2 (amended): wearing the Ruling ring in either slot at distance length
≥ 100, the final-boss spawn fires and produces a top-tier (Legendary)
variant of the first catalog class at the player's current level, with
doubled base health and base strength (speed and growth rates unchanged). -/
theorem claim_C2 (cat : Catalog) (p : Character) (loc : Location)
    (hring : p.left_ring = some Ring.Ruling ∨ p.right_ring = some Ring.Ruling)
    (hd : 100 ≤ loc.distanceFromHome.len) :
    spawn_gorthaur cat p loc =
      some ({ cat.playerFirst with
              name := "gorthaur",
              hp := { cat.playerFirst.hp with base := cat.playerFirst.hp.base * 2 },
              strength := { cat.playerFirst.strength with
                            base := cat.playerFirst.strength.base * 2 },
              category := Category.Legendary }, p.level) := by
  simp only [spawn_gorthaur]
  rw [if_pos ⟨hring, hd⟩]

/-- C2 witness: the amended theorem applied to a concrete catalog, player
and remote location. -/
theorem claim_C2_wit :
    spawn_gorthaur baseCatalog c2Player farLoc =
      some ({ baseCatalog.playerFirst with
              name := "gorthaur",
              hp := { baseCatalog.playerFirst.hp with
                      base := baseCatalog.playerFirst.hp.base * 2 },
              strength := { baseCatalog.playerFirst.strength with
                            base := baseCatalog.playerFirst.strength.base * 2 },
              category := Category.Legendary }, c2Player.level) :=
  claim_C2 baseCatalog c2Player farLoc (by decide) (by decide)

/-- C7: whenever evasion is active (either slot holds the Evade ring, per
`enemies_evaded`), the enemy generator `spawn` returns no encounter,
regardless of distance, location, quest state, the appearance roll and all
other randomizer outcomes. -/
theorem claim_C7 (cat : Catalog) (a s d : Bool) (gc : String) (j : Int → Int)
    (player : Character) (loc : Location) (quests : List (Bool × String))
    (hev : enemies_evaded player = true) :
    spawn cat a s d gc j player loc quests = none := by
  simp [spawn, hev]

/-- A player wearing the Evade ring, used for the C7 witness. -/
def c7Player : Character :=
  { cls := plainClass, level := 1, left_ring := some Ring.Evade, right_ring := none }

/-- C7 witness: a concrete evading player yields no spawn even with a
successful appearance roll at a remote location. -/
theorem claim_C7_wit :
    spawn baseCatalog true true true "slime" (fun l => l) c7Player farLoc [] = none :=
  claim_C7 baseCatalog true true true "slime" (fun l => l) c7Player farLoc [] (by decide)

/-- C5: when the "Defeat the Guardian." quest is listed and not completed,
the distance length exceeds 10, evasion is inactive and the appearance roll
succeeds, `spawn` produces the guardian class at player level + 5
(jitter applied afterwards per the generator's final step), overriding every
special and default spawn rule (all other rolls are quantified away). -/
theorem claim_C5 (cat : Catalog) (s d : Bool) (gc : String) (j : Int → Int)
    (player : Character) (loc : Location) (quests : List (Bool × String))
    (hev : enemies_evaded player = false)
    (hq : (false, "Defeat the Guardian.") ∈ quests)
    (hd : 10 < loc.distanceFromHome.len) :
    spawn cat true s d gc j player loc quests =
      some (Character.new cat.guardianClass (j (player.level + 5))) := by
  have hany : quests.any (fun q => !q.1 && q.2 == "Defeat the Guardian.") = true :=
    List.any_eq_true.mpr ⟨(false, "Defeat the Guardian."), hq, by decide⟩
  simp only [spawn, hev, Bool.false_eq_true, if_false, if_true]
  rw [if_pos ⟨hany, hd⟩]

/-- The level-3 player of the C5 witness. -/
def c5Player : Character := mkChar 3

/-- A location just past the guardian threshold (distance length 11). -/
def c5Loc : Location :=
  { distanceFromHome := { len := 11 }, isHome := false, isRpgDir := false }

/-- C5 witness: the guardian spawn at a concrete game state with the quest
pending and distance length 11. -/
theorem claim_C5_wit :
    spawn baseCatalog true false false "slime" (fun l => l) c5Player c5Loc
        [(true, "Find the Amulet of Power."), (false, "Defeat the Guardian.")] =
      some (Character.new baseCatalog.guardianClass ((fun l => l) (c5Player.level + 5))) :=
  claim_C5 baseCatalog false false "slime" (fun l => l) c5Player c5Loc
    [(true, "Find the Amulet of Power."), (false, "Defeat the Guardian.")]
    (by decide) (by decide) (by decide)

/-- C6: within the chosen enemy family, the kept variants are exactly those
whose tier requirement (`levelReq`: Common 1, Rare 5, Legendary 10, other
tiers 1) is at most the player's level; `spawn_random` picks a variant of
maximal base hp among them, and falls back to the family's first variant
when none qualifies. -/
theorem claim_C6 (enemies : List Class) (gc : String) (player : Character)
    (d : Distance) (hne : groupOf enemies gc ≠ []) :
    (∀ e, e ∈ eligibleOf enemies gc player ↔
        e ∈ groupOf enemies gc ∧ levelReq e.category ≤ player.level) ∧
    (eligibleOf enemies gc player ≠ [] →
      (spawn_random enemies gc player d).1 ∈ eligibleOf enemies gc player ∧
      ∀ e ∈ eligibleOf enemies gc player,
        e.hp.base ≤ (spawn_random enemies gc player d).1.hp.base) ∧
    (eligibleOf enemies gc player = [] →
      (spawn_random enemies gc player d).1 = (groupOf enemies gc).headD defaultClass) := by
  refine ⟨?_, ?_, ?_⟩
  · intro e
    simp [eligibleOf, List.mem_filter]
  · intro hel
    obtain ⟨c, hmax, hmem, hall⟩ := maxByHp_spec _ hel
    have hc : (spawn_random enemies gc player d).1 = c := by
      simp [spawn_random, hmax]
    rw [hc]
    exact ⟨hmem, hall⟩
  · intro hel
    have hmax : maxByHp (eligibleOf enemies gc player) = none := by
      rw [hel]; rfl
    simp [spawn_random, hmax]

/-- The level-5 player of the C6 witness (meets Common and Rare tiers). -/
def c6Player : Character := mkChar 5

/-- C6 witness: on the concrete two-variant "slime" family at player level
5, the chosen variant is eligible (and, by evaluation, the rare 20-hp one). -/
theorem claim_C6_wit :
    groupOf baseCatalog.enemies "slime" ≠ [] ∧
    (spawn_random baseCatalog.enemies "slime" c6Player { len := 3 }).1 ∈
      eligibleOf baseCatalog.enemies "slime" c6Player ∧
    (spawn_random baseCatalog.enemies "slime" c6Player { len := 3 }).1 = slimeRare :=
  ⟨by decide,
   ((claim_C6 baseCatalog.enemies "slime" c6Player { len := 3 } (by decide)).2.1
     (by decide)).1,
   by decide⟩

/-- A game with an active Gambler encounter and no combat, used for the C3
instances. -/
def c3Game : Game :=
  { player := mkChar 1, location := plainLoc, quests := [],
    in_combat := none, in_encounter := some Encounter.Gambler, gold := 0 }

/-- The same game already in combat, used for the C3 witness. -/
def c3GameFighting : Game :=
  { c3Game with in_combat := some (Character.new slimeCommon 1) }

/-- C3 counterexample: with an NPC encounter already active, the `battle`
command still creates a combat (it checks only the combat slot), reaching a
state with both an active combat and an active NPC encounter. -/
theorem claim_C3_cex :
    c3Game.in_encounter = some Encounter.Gambler ∧
    c3Game.in_combat = none ∧
    ((battle baseCatalog true false false "slime" (fun l => l) c3Game).1.in_combat).isSome
      = true ∧
    (battle baseCatalog true false false "slime" (fun l => l) c3Game).1.in_encounter
      = some Encounter.Gambler := by
  decide

/-- C3 (amended): combat creation via `battle` requires only that no combat
is active (it does not consult the NPC slot and preserves it), and NPC
creation via `npc_spawn` checks neither slot (it preserves the combat
slot); hence a state with both an active combat and an active NPC
encounter is reachable. -/
theorem claim_C3 (cat : Catalog) (a s d : Bool) (gc : String) (j : Int → Int)
    (g : Game) :
    (g.in_combat.isSome = true →
      battle cat a s d gc j g = (g, some "Already in combat.")) ∧
    (g.in_combat = none →
      (battle cat a s d gc j g).1.in_encounter = g.in_encounter) ∧
    (npc_spawn true 0 g).in_encounter = some Encounter.Gambler ∧
    (npc_spawn true 0 g).in_combat = g.in_combat := by
  refine ⟨?_, ?_, ?_, ?_⟩
  · intro h
    simp [battle, h]
  · intro h
    have hnone : g.in_combat.isSome = false := by rw [h]; rfl
    cases hsp : spawn cat a s d gc j g.player g.location g.quests with
    | none => simp [battle, hnone, hsp]
    | some e => simp [battle, hnone, hsp]
  · simp [npc_spawn]
  · simp [npc_spawn]

/-- C3 witness: the amended guarantees at the two concrete games. -/
theorem claim_C3_wit :
    battle baseCatalog true false false "slime" (fun l => l) c3GameFighting
      = (c3GameFighting, some "Already in combat.") ∧
    (battle baseCatalog true false false "slime" (fun l => l) c3Game).1.in_encounter
      = c3Game.in_encounter :=
  ⟨(claim_C3 baseCatalog true false false "slime" (fun l => l) c3GameFighting).1 rfl,
   (claim_C3 baseCatalog true false false "slime" (fun l => l) c3Game).2.1 rfl⟩

/-- A game with an active Gambler encounter and no gold, used for the C4
counterexample. -/
def c4Game : Game :=
  { player := mkChar 1, location := plainLoc, quests := [],
    in_combat := none, in_encounter := some Encounter.Gambler, gold := 0 }

/-- C4 counterexample: with an active Gambler encounter, its matching verb
`bet` does NOT resolve unconditionally: betting 5 with 0 gold fails with an
error and leaves the encounter slot occupied (a retry state). -/
theorem claim_C4_cex :
    c4Game.in_encounter = some Encounter.Gambler ∧
    (bet c4Game 5 0).2 = some "You don't have that much gold to bet." ∧
    (bet c4Game 5 0).1.in_encounter = some Encounter.Gambler := by
  decide

/-- C4 (amended): `brew` (Witch) and `listen` (GhostlyMaiden) resolve their
encounter unconditionally and clear the slot; `bet` (Gambler) resolves and
clears the slot whenever the amount does not exceed the current gold, but
with insufficient gold it fails with an error and the encounter stays
active. -/
theorem claim_C4 (g : Game) (amount : Int) (r : Nat) (addPotion : Game → Game) :
    (g.in_encounter = some Encounter.Witch →
      (brew addPotion g).1.in_encounter = none ∧ (brew addPotion g).2 = none) ∧
    (g.in_encounter = some Encounter.GhostlyMaiden →
      listen g = ({ g with in_encounter := none }, none)) ∧
    (g.in_encounter = some Encounter.Gambler →
      (amount ≤ g.gold →
        (bet g amount r).1.in_encounter = none ∧ (bet g amount r).2 = none) ∧
      (g.gold < amount →
        bet g amount r = (g, some "You don't have that much gold to bet."))) := by
  refine ⟨?_, ?_, ?_⟩
  · intro h
    simp [brew, h]
  · intro h
    simp [listen, h]
  · intro h
    constructor
    · intro hle
      have hnot : ¬ amount > g.gold := not_lt.mpr hle
      simp only [bet, h]
      rw [if_neg hnot]
      cases hr : (r == 0) <;> simp [hr]
    · intro hgt
      simp [bet, h, hgt]

/-- The C4 witness games: a Witch encounter, a GhostlyMaiden encounter and
a funded Gambler encounter. -/
def c4GameW : Game := { c4Game with in_encounter := some Encounter.Witch }

/-- See `c4GameW`. -/
def c4GameM : Game := { c4Game with in_encounter := some Encounter.GhostlyMaiden }

/-- See `c4GameW`. -/
def c4GameG : Game := { c4Game with gold := 10 }

/-- C4 witness: the amended behavior at concrete games — brew and listen
clear the slot, an affordable bet clears it, an unaffordable bet errors. -/
theorem claim_C4_wit :
    (brew (fun x => x) c4GameW).1.in_encounter = none ∧
    listen c4GameM = ({ c4GameM with in_encounter := none }, none) ∧
    (bet c4GameG 5 1).1.in_encounter = none ∧
    bet c4GameG 50 1 = (c4GameG, some "You don't have that much gold to bet.") :=
  ⟨((claim_C4 c4GameW 0 0 (fun x => x)).1 rfl).1,
   (claim_C4 c4GameM 0 0 (fun x => x)).2.1 rfl,
   (((claim_C4 c4GameG 5 1 (fun x => x)).2.2 rfl).1 (by decide)).1,
   ((claim_C4 c4GameG 50 1 (fun x => x)).2.2 rfl).2 (by decide)⟩

/-- C8: quest completion is monotone for both quests in the repository
(`DefeatGuardian`, `FindAmulet`): once `handle` returns true, every
subsequent call — after any further event sequence, for any event, related
or not — returns true, and the stored flag never reverts. -/
theorem claim_C8 (s : Bool) (e : Event) (es : List Event) (e2 : Event) :
    ((DefeatGuardian.handle s e).2 = true →
      runEvents DefeatGuardian.handle (DefeatGuardian.handle s e).1 es = true ∧
      (DefeatGuardian.handle
        (runEvents DefeatGuardian.handle (DefeatGuardian.handle s e).1 es) e2).2 = true) ∧
    ((FindAmulet.handle s e).2 = true →
      runEvents FindAmulet.handle (FindAmulet.handle s e).1 es = true ∧
      (FindAmulet.handle
        (runEvents FindAmulet.handle (FindAmulet.handle s e).1 es) e2).2 = true) := by
  constructor
  · intro h
    have h1 : (DefeatGuardian.handle s e).1 = true := h
    rw [h1]
    have hr := runEvents_true DefeatGuardian.handle defeatGuardian_handle_stays es
    refine ⟨hr, ?_⟩
    rw [hr, defeatGuardian_handle_stays e2]
  · intro h
    have h1 : (FindAmulet.handle s e).1 = true := h
    rw [h1]
    have hr := runEvents_true FindAmulet.handle findAmulet_handle_stays es
    refine ⟨hr, ?_⟩
    rw [hr, findAmulet_handle_stays e2]

/-- C8 witness: after the completing event (guardian battle / amulet
pickup), both quests keep reporting completion through an unrelated event
sequence. -/
theorem claim_C8_wit :
    runEvents DefeatGuardian.handle
      (DefeatGuardian.handle false (Event.BattleWon "guardian")).1
      [Event.OtherEvent "x", Event.ItemAdded Key.Amulet] = true ∧
    (FindAmulet.handle
      (runEvents FindAmulet.handle
        (FindAmulet.handle false (Event.ItemAdded Key.Amulet)).1
        [Event.OtherEvent "y"]) (Event.BattleWon "z")).2 = true :=
  ⟨((claim_C8 false (Event.BattleWon "guardian")
      [Event.OtherEvent "x", Event.ItemAdded Key.Amulet] (Event.OtherEvent "w")).1
      (by decide)).1,
   ((claim_C8 false (Event.ItemAdded Key.Amulet)
      [Event.OtherEvent "y"] (Event.BattleWon "z")).2 (by decide)).2⟩

/-- C9: for attack, flee, bribe, use-skill and change-dir, when the
underlying game operation signals the distinguished character-death error
the command layer resets the game before returning an (empty-message)
error; any other error is returned with the operation's resulting state,
without a reset. -/
theorem claim_C9 (op goTo visit : Game → Game × Option GameErr)
    (reset : Game → Game) (force : Bool) (g : Game) :
    ((op g).2 = some GameErr.dead →
      attack op reset g = (reset (op g).1, some (GameErr.other "")) ∧
      flee op reset g = (reset (op g).1, some (GameErr.other "")) ∧
      bribe op reset g = (reset (op g).1, some (GameErr.other "")) ∧
      use_skill op reset g = (reset (op g).1, some (GameErr.other ""))) ∧
    (∀ m, (op g).2 = some (GameErr.other m) →
      attack op reset g = ((op g).1, some (GameErr.other m)) ∧
      flee op reset g = ((op g).1, some (GameErr.other m)) ∧
      bribe op reset g = ((op g).1, some (GameErr.other m)) ∧
      use_skill op reset g = ((op g).1, some (GameErr.other m))) ∧
    ((if force then visit g else goTo g).2 = some GameErr.dead →
      change_dir goTo visit reset force g =
        (reset (if force then visit g else goTo g).1, some (GameErr.other ""))) ∧
    (∀ m, (if force then visit g else goTo g).2 = some (GameErr.other m) →
      change_dir goTo visit reset force g =
        ((if force then visit g else goTo g).1, some (GameErr.other m))) := by
  refine ⟨?_, ?_, ?_, ?_⟩
  · intro h
    rcases hop : op g with ⟨g1, r⟩
    rw [hop] at h
    have hr : r = some GameErr.dead := h
    subst hr
    exact ⟨by simp [attack, hop], by simp [flee, hop],
           by simp [bribe, hop], by simp [use_skill, hop]⟩
  · intro m h
    rcases hop : op g with ⟨g1, r⟩
    rw [hop] at h
    have hr : r = some (GameErr.other m) := h
    subst hr
    exact ⟨by simp [attack, hop], by simp [flee, hop],
           by simp [bribe, hop], by simp [use_skill, hop]⟩
  · intro h
    rcases hop : (if force then visit g else goTo g) with ⟨g1, r⟩
    rw [hop] at h
    have hr : r = some GameErr.dead := h
    subst hr
    simp [change_dir, hop]
  · intro m h
    rcases hop : (if force then visit g else goTo g) with ⟨g1, r⟩
    rw [hop] at h
    have hr : r = some (GameErr.other m) := h
    subst hr
    simp [change_dir, hop]

/-- A plain game state for the C9 witness. -/
def c9Game : Game :=
  { player := mkChar 1, location := plainLoc, quests := [],
    in_combat := none, in_encounter := none, gold := 7 }

/-- An operation that signals character death. -/
def opDead : Game → Game × Option GameErr := fun g => (g, some GameErr.dead)

/-- An operation that signals an ordinary error. -/
def opOther : Game → Game × Option GameErr :=
  fun g => (g, some (GameErr.other "oops"))

/-- A stand-in reset pipeline (zeroes the gold). -/
def resetStub : Game → Game := fun g => { g with gold := 0 }

/-- C9 witness: death resets before erroring (attack, change-dir); an
ordinary error passes through untouched (flee). -/
theorem claim_C9_wit :
    attack opDead resetStub c9Game = (resetStub c9Game, some (GameErr.other "")) ∧
    flee opOther resetStub c9Game = (c9Game, some (GameErr.other "oops")) ∧
    change_dir opOther opDead resetStub true c9Game
      = (resetStub c9Game, some (GameErr.other "")) :=
  ⟨((claim_C9 opDead opOther opDead resetStub true c9Game).1 rfl).1,
   (((claim_C9 opOther opOther opDead resetStub true c9Game).2.1 "oops" rfl)).2.1,
   ((claim_C9 opOther opOther opDead resetStub true c9Game).2.2.1 rfl)⟩

/-- A funded game with an active Gambler encounter for the C10 witness. -/
def c10Game : Game :=
  { player := mkChar 1, location := plainLoc, quests := [],
    in_combat := none, in_encounter := some Encounter.Gambler, gold := 10 }

/-- C10: with an active Gambler encounter, a bet of at most the current
gold either adds or subtracts exactly the bet amount — decided by the
two-way `range(2)` roll `r` — and clears the encounter slot in both
outcomes; a bet above the current gold fails with an error leaving gold
and the encounter slot unchanged. -/
theorem claim_C10 (g : Game) (amount : Int) (r : Nat)
    (henc : g.in_encounter = some Encounter.Gambler) :
    (amount ≤ g.gold →
      (r = 0 →
        bet g amount r = ({ g with gold := g.gold + amount, in_encounter := none }, none)) ∧
      (r ≠ 0 →
        bet g amount r = ({ g with gold := g.gold - amount, in_encounter := none }, none))) ∧
    (g.gold < amount →
      bet g amount r = (g, some "You don't have that much gold to bet.")) := by
  constructor
  · intro hle
    have hnot : ¬ amount > g.gold := not_lt.mpr hle
    constructor
    · intro hr
      subst hr
      simp only [bet, henc]
      rw [if_neg hnot]
      rfl
    · intro hr
      have hbeq : (r == 0) = false := beq_eq_false_iff_ne.mpr hr
      simp only [bet, henc]
      rw [if_neg hnot, if_neg (by simp [hbeq])]
  · intro hgt
    simp [bet, henc, hgt]

/-- C10 witness: at 10 gold, a won bet of 5 yields 15, a lost bet of 5
yields 5 (slot cleared both times); a bet of 50 errors and changes
nothing. -/
theorem claim_C10_wit :
    bet c10Game 5 0 = ({ c10Game with gold := c10Game.gold + 5, in_encounter := none }, none) ∧
    bet c10Game 5 1 = ({ c10Game with gold := c10Game.gold - 5, in_encounter := none }, none) ∧
    bet c10Game 50 0 = (c10Game, some "You don't have that much gold to bet.") :=
  ⟨((claim_C10 c10Game 5 0 rfl).1 (by decide)).1 rfl,
   ((claim_C10 c10Game 5 1 rfl).1 (by decide)).2 (by decide),
   (claim_C10 c10Game 50 0 rfl).2 (by decide)⟩

end RpgCli
